import Mathlib

/-
Verification of the hardpotato Gamry script generation module (src/hardpotato/gamry.py).

The module translates experiment parameters into a line-oriented control
script for Gamry potentiostats.  Python numbers appear in the code only
through comparison (`<`, `>`) and text rendering (`str(x)` inside
f-strings), so a Python numeric value is embedded as a pair of its
rational value and its rendered string (`PyNum`).  Raising `Exception`
is embedded as `Except (List String)`, one list element per positional
argument of the raised exception.
-/

/-- A Python numeric value as the Gamry module observes it: its numeric
value (used by comparisons) together with `str(x)` (used by f-strings).
At concrete inputs the `str` field is instantiated with the string CPython
actually renders. -/
structure PyNum where
  val : ℚ
  str : String
deriving DecidableEq, Repr

/-- A rational literal given by numerator and denominator in reduced
form; written through the `Rat` constructor so that it evaluates inside
kernel reduction. -/
def qfrac (n : ℤ) (d : ℕ) (h1 : d ≠ 0) (h2 : n.natAbs.Coprime d) : ℚ :=
  Rat.mk' n d h1 h2

/-- 1/1000000, the value of the Python float `0.000001`. -/
def q1em6 : ℚ := qfrac 1 1000000 (by decide) (by decide)

/-- 1/100000, the value of the Python float `0.00001`. -/
def q1em5 : ℚ := qfrac 1 100000 (by decide) (by decide)

/-- 1/2, the value of the Python float `0.5`. -/
def q05 : ℚ := qfrac 1 2 (by decide) (by decide)

/-- 1/10, the value of the Python float `0.1`. -/
def q01 : ℚ := qfrac 1 10 (by decide) (by decide)

/-- 1/1000, the value of the Python float `0.001`. -/
def q0001 : ℚ := qfrac 1 1000 (by decide) (by decide)

/-- Catalog record built by `GamInfo.__init__` (gamry.py lines 12-31). -/
structure GamInfoData where
  name : String
  file_tag : String
  tech : List String
  options : List String
  bipot : Bool
  resistance_opt : Bool
  E_min : PyNum
  E_max : PyNum
  sr_min : PyNum
  sr_max : PyNum
  freq_min : PyNum
  freq_max : PyNum
deriving DecidableEq, Repr

/-- The `gam1010e` entry of the static table (gamry.py lines 13-28). -/
def gam1010eInfo : GamInfoData where
  name := "Gamry Interface 1010E (gam1010e)"
  file_tag := "c\x02\x00\x00"
  tech := ["CV", "CA", "LSV", "OCP", "CP", "DP", "SWV", "EIS"]
  options := ["Resistance in ohms (resistance)"]
  bipot := true
  resistance_opt := true
  E_min := ⟨-12, "-12"⟩
  E_max := ⟨12, "12"⟩
  sr_min := ⟨q1em6, "1e-06"⟩
  sr_max := ⟨10000, "10000"⟩
  freq_min := ⟨q1em5, "1e-05"⟩
  freq_max := ⟨2000000, "2000000"⟩

/-- `GamInfo.__init__` (gamry.py lines 12-31): model lookup; any id other
than "gam1010e" raises `Exception(f"Gamry model {model} not available in hardpotato.")`. -/
def GamInfo.lookup (model : String) : Except (List String) GamInfoData :=
  if model = "gam1010e" then
    .ok gam1010eInfo
  else
    .error ["Gamry model " ++ model ++ " not available in hardpotato."]

/-- `GamInfo.limits` (gamry.py lines 33-38): raises when
`val < low or val > high`, with a message assembled from the label,
bounds, offending value and units. -/
def GamInfo.limits (val low high : PyNum) (label units : String) :
    Except (List String) Unit :=
  if val.val < low.val ∨ val.val > high.val then
    .error [label ++ " should be between " ++ low.str ++ " " ++ units ++
            " and " ++ high.str ++ " " ++ units ++
            ". Received " ++ val.str ++ " " ++ units]
  else
    .ok ()

/-- The keyword arguments `GamBase.__init__` reads (gamry.py lines 51-61),
with their `kwargs.get` defaults made explicit at construction sites. -/
structure Kwargs where
  model : String
  fileName : String
  folder : String
  header : String
  resistance : PyNum
deriving DecidableEq, Repr

/-- The end-of-script clause choice of `GamBase.__init__`
(gamry.py lines 62-66): the Python truthiness test `self.resistance`
on a number is `resistance ≠ 0`. -/
def end_clause (resistance : PyNum) (resistance_opt : Bool) (fileName : String) :
    String :=
  if resistance.val ≠ 0 ∧ resistance_opt then
    "\nmir=" ++ resistance.str ++ "\nircompon\nrun\nircompoff\n" ++
      "save:" ++ fileName ++ "\ntsave:" ++ fileName
  else
    "\nrun\nsave:" ++ fileName ++ "\ntsave:" ++ fileName

/-- State of a `GamBase` object (gamry.py lines 51-66). -/
structure GamBase where
  info : GamInfoData
  fileName : String
  folder : String
  header : String
  head : String
  body : String
  foot : String
  resistance : PyNum
  end_body : String
deriving DecidableEq, Repr

/-- `GamBase.__init__` (gamry.py lines 51-66). -/
def GamBase.init (k : Kwargs) : Except (List String) GamBase :=
  match GamInfo.lookup k.model with
  | .error e => .error e
  | .ok info => .ok
    { info := info
      fileName := k.fileName
      folder := k.folder
      header := k.header
      head := info.file_tag ++ "\nfolder: " ++ k.folder ++
              "\nfileoverride\nheader: " ++ k.header ++ "\n\n"
      body := ""
      foot := "\n forcequit: yesiamsure\n"
      resistance := k.resistance
      end_body := end_clause k.resistance info.resistance_opt k.fileName }

/-- The `text` property (gamry.py lines 68-70), recomputed from the
current field values on each access. -/
def GamBase.text (b : GamBase) : String :=
  b.head ++ b.body ++ b.end_body ++ b.foot

/-- `GamBase.correct_volts` (gamry.py lines 72-88): sweep-bound
normalization returning `(eh, el, pn)`. -/
def GamBase.correct_volts (Ev1 Ev2 : PyNum) : PyNum × PyNum × String :=
  if Ev1.val > Ev2.val then
    (Ev1, Ev2, "p")
  else
    (Ev2, Ev1, "n")

/-- `GamBase.bipot` (gamry.py lines 90-98).  A raise leaves the Python
object unchanged, so the embedding returns the outcome together with the
post-state of the builder. -/
def GamBase.bipot (b : GamBase) (E sens : PyNum) :
    Except (List String) Unit × GamBase :=
  if b.info.bipot = false then
    (.error [b.info.name, " does not have bipot abilities."], b)
  else
    match GamInfo.limits E b.info.E_min b.info.E_max "E2" "V" with
    | .error e => (.error e, b)
    | .ok () =>
        (.ok (),
         { b with
             body := b.body ++ "\ne2=" ++ E.str ++ "\nsens2=" ++ sens.str ++
                     "\ni2on" ++ "\nrun\nsave:" ++ b.fileName ++
                     "\ntsave:" ++ b.fileName })

/-- `GamCV.validate` (gamry.py lines 111-116): only the four potentials
and the scan rate are range-checked. -/
def GamCV.validate (info : GamInfoData) (Eini Ev1 Ev2 Efin sr : PyNum) :
    Except (List String) Unit :=
  match GamInfo.limits Eini info.E_min info.E_max "Eini" "V" with
  | .error e => .error e
  | .ok () =>
  match GamInfo.limits Ev1 info.E_min info.E_max "Ev1" "V" with
  | .error e => .error e
  | .ok () =>
  match GamInfo.limits Ev2 info.E_min info.E_max "Ev2" "V" with
  | .error e => .error e
  | .ok () =>
  match GamInfo.limits Efin info.E_min info.E_max "Efin" "V" with
  | .error e => .error e
  | .ok () =>
  GamInfo.limits sr info.sr_min info.sr_max "sr" "V/s"

/-- `GamCV.__init__` (gamry.py lines 101-109): base construction, then
validation, then the cv body.  `nSweeps` is a Python int (it feeds the
`cl={nSweeps+1}` line), embedded as `ℤ` whose `toString` matches
the CPython `str` rendering of ints. -/
def GamCV.init (Eini Ev1 Ev2 Efin sr dE : PyNum) (nSweeps : ℤ)
    (sens : PyNum) (k : Kwargs) : Except (List String) GamBase :=
  match GamBase.init k with
  | .error e => .error e
  | .ok b =>
  match GamCV.validate b.info Eini Ev1 Ev2 Efin sr with
  | .error e => .error e
  | .ok () =>
  let (eh, el, pn) := GamBase.correct_volts Ev1 Ev2
  .ok
    { b with
        body := "tech=cv\nei=" ++ Eini.str ++ "\neh=" ++ eh.str ++
                "\nel=" ++ el.str ++ "\npn=" ++ pn ++
                "\ncl=" ++ toString (nSweeps + 1) ++
                "\nefon\nef=" ++ Efin.str ++ "\nsi=" ++ dE.str ++
                "\nv=" ++ sr.str ++ "\nsens=" ++ sens.str }

/-- Modelled from the spec: the identifier of the second (newer)
firmware-generation variant of the model family; the module of that generation
is part of the repository but absent from the provided sources. -/
def newGenId : String := "gamgen2"

/-- Modelled from the spec: the catalog entry for the newer firmware
generation, which is absent from the provided sources.  The spec fixes
only comparative properties — quiet-time supported (default 2 s),
voltage bounds wider than the ±12 V of the first generation, frequency range
narrower than that of the first generation, no bipotentiostat, an additional
staircase/pulse-voltammetry technique — so the concrete numbers below
are chosen to realize those comparatives. -/
def newGenInfo : GamInfoData where
  name := "Gamry newer-generation model (gamgen2)"
  file_tag := "C\x02\x00\x00"
  tech := ["CV", "CA", "IT", "NPV", "OCP", "EIS"]
  options := ["Resistance in ohms (resistance)"]
  bipot := false
  resistance_opt := true
  E_min := ⟨-15, "-15"⟩
  E_max := ⟨15, "15"⟩
  sr_min := ⟨q1em6, "1e-06"⟩
  sr_max := ⟨10000, "10000"⟩
  freq_min := ⟨qfrac 1 100 (by decide) (by decide), "0.01"⟩
  freq_max := ⟨1000000, "1000000"⟩

/-- The first generation has no quiet-time parameter: nothing in
gamry.py reads or emits `qt` (the read at line 60 is commented out in
the source). -/
def gam1010eHasQuietTime : Bool := false

/-- Modelled from the spec: the newer generation supports a quiet-time
setting (default 2 s). -/
def newGenHasQuietTime : Bool := true

/-- Modelled from the spec: the repository-wide model catalog spanning
both firmware generations; only the gam1010e generation is present
under the provided sources, so the second entry is the modelled one. -/
def fullLookup (m : String) : Except (List String) GamInfoData :=
  if m = "gam1010e" then .ok gam1010eInfo
  else if m = newGenId then .ok newGenInfo
  else .error ["Gamry model " ++ m ++ " not available in hardpotato."]

/-- Modelled from the spec: the newer-generation cyclic-voltammetry
builder, absent from the provided sources.  Header and footer are
assembled as in the shared base contract, the potentials and scan rate
are validated through the shared range check, the body follows the
line order the spec gives for this generation (including the quiet-time line),
and the end clause follows the shared run/save rule. -/
def NewGenCV.init (Eini Ev1 Ev2 Efin sr dE : PyNum) (nSweeps : ℤ)
    (sens qt : PyNum) (k : Kwargs) : Except (List String) GamBase :=
  match GamCV.validate newGenInfo Eini Ev1 Ev2 Efin sr with
  | .error e => .error e
  | .ok () =>
  let (eh, el, pn) := GamBase.correct_volts Ev1 Ev2
  .ok
    { info := newGenInfo
      fileName := k.fileName
      folder := k.folder
      header := k.header
      head := newGenInfo.file_tag ++ "\nfolder: " ++ k.folder ++
              "\nfileoverride\nheader: " ++ k.header ++ "\n\n"
      body := "tech=cv\nei=" ++ Eini.str ++ "\neh=" ++ eh.str ++
              "\nel=" ++ el.str ++ "\npn=" ++ pn ++
              "\ncl=" ++ toString (nSweeps + 1) ++
              "\nefon\nef=" ++ Efin.str ++ "\nsi=" ++ dE.str ++
              "\nqt=" ++ qt.str ++ "\nv=" ++ sr.str ++
              "\nsens=" ++ sens.str
      foot := "\n forcequit: yesiamsure\n"
      resistance := k.resistance
      end_body := end_clause k.resistance newGenInfo.resistance_opt k.fileName }

instance exceptDecEq {ε α : Type} [DecidableEq ε] [DecidableEq α] :
    DecidableEq (Except ε α)
  | .error x, .error y =>
    if h : x = y then .isTrue (by rw [h]) else .isFalse (by simp [h])
  | .error _, .ok _ => .isFalse (by simp)
  | .ok _, .error _ => .isFalse (by simp)
  | .ok x, .ok y =>
    if h : x = y then .isTrue (by rw [h]) else .isFalse (by simp [h])

/-- Split a character list at newline characters. -/
def splitLines : List Char → List (List Char)
  | [] => [[]]
  | c :: rest =>
    match splitLines rest with
    | [] => [[]]
    | l :: ls => if c = '\n' then [] :: l :: ls else (c :: l) :: ls

/-- The lines of a string: the pieces between newline characters. -/
def strLines (s : String) : List String :=
  (splitLines s.data).map String.mk

/-- An infix of a character list is still an infix after extending the
list on the left. -/
theorem substr_extend {x r : List Char} (d : List Char) (h : x <:+: r) :
    x <:+: d ++ r :=
  h.trans (List.suffix_append d r).isInfix

/-- C1: `correct_volts` returns `(v1, v2, positive-going)` when
`v1 > v2` and `(v2, v1, negative-going)` otherwise (including
`v1 = v2`), and the returned high bound is always at least the
returned low bound. -/
theorem correct_volts_normalizes (v1 v2 : PyNum) :
    (v1.val > v2.val → GamBase.correct_volts v1 v2 = (v1, v2, "p")) ∧
    (¬ v1.val > v2.val → GamBase.correct_volts v1 v2 = (v2, v1, "n")) ∧
    (GamBase.correct_volts v1 v2).2.1.val ≤ (GamBase.correct_volts v1 v2).1.val := by
  have e : GamBase.correct_volts v1 v2 =
      if v1.val > v2.val then (v1, v2, "p") else (v2, v1, "n") := rfl
  by_cases h : v1.val > v2.val
  · rw [e, if_pos h]
    exact ⟨fun _ => rfl, fun hc => absurd h hc, le_of_lt h⟩
  · rw [e, if_neg h]
    exact ⟨fun hc => absurd hc h, fun _ => rfl, le_of_not_lt h⟩

theorem correct_volts_normalizes_witness :
    GamBase.correct_volts ⟨1, "1"⟩ ⟨0, "0"⟩ = (⟨1, "1"⟩, ⟨0, "0"⟩, "p") ∧
    GamBase.correct_volts ⟨0, "0"⟩ ⟨0, "0"⟩ = (⟨0, "0"⟩, ⟨0, "0"⟩, "n") :=
  ⟨(correct_volts_normalizes ⟨1, "1"⟩ ⟨0, "0"⟩).1 (by norm_num),
   (correct_volts_normalizes ⟨0, "0"⟩ ⟨0, "0"⟩).2.1 (by norm_num)⟩

/-- C3: the range check succeeds exactly when the value is neither below
the low bound nor above the high bound (so both boundary values pass),
and on failure the raised message carries the label, the units, both
bounds and the offending value. -/
theorem limits_iff_out_of_range (val low high : PyNum) (label units : String) :
    (GamInfo.limits val low high label units = .ok () ↔
      ¬(val.val < low.val ∨ val.val > high.val)) ∧
    ((val.val = low.val ∨ val.val = high.val) → low.val ≤ high.val →
      GamInfo.limits val low high label units = .ok ()) ∧
    (val.val < low.val ∨ val.val > high.val →
      ∃ msg, GamInfo.limits val low high label units = .error [msg] ∧
        label.data <:+: msg.data ∧ units.data <:+: msg.data ∧
        low.str.data <:+: msg.data ∧ high.str.data <:+: msg.data ∧
        val.str.data <:+: msg.data) := by
  unfold GamInfo.limits
  refine ⟨?_, ?_, ?_⟩
  · by_cases h : val.val < low.val ∨ val.val > high.val
    · simp [h]
    · simp [h]
  · intro hb hlh
    have h : ¬(val.val < low.val ∨ val.val > high.val) := by
      rcases hb with hb | hb
      · rw [hb]; push_neg; exact ⟨le_refl _, hlh⟩
      · rw [hb]; push_neg; exact ⟨hlh, le_refl _⟩
    simp [h]
  · intro h
    refine ⟨label ++ " should be between " ++ low.str ++ " " ++ units ++
            " and " ++ high.str ++ " " ++ units ++
            ". Received " ++ val.str ++ " " ++ units, by simp [h], ?_, ?_, ?_, ?_, ?_⟩ <;>
      simp only [String.data_append, List.append_assoc]
    · exact (List.prefix_append _ _).isInfix
    · exact substr_extend _ (substr_extend _ (substr_extend _ (substr_extend _
        ((List.prefix_append _ _).isInfix))))
    · exact substr_extend _ (substr_extend _ ((List.prefix_append _ _).isInfix))
    · exact substr_extend _ (substr_extend _ (substr_extend _ (substr_extend _
        (substr_extend _ (substr_extend _ ((List.prefix_append _ _).isInfix))))))
    · exact substr_extend _ (substr_extend _ (substr_extend _ (substr_extend _
        (substr_extend _ (substr_extend _ (substr_extend _ (substr_extend _
        (substr_extend _ (substr_extend _ ((List.prefix_append _ _).isInfix))))))))))

theorem limits_iff_out_of_range_witness :
    GamInfo.limits ⟨0, "0"⟩ ⟨0, "0"⟩ ⟨3, "3"⟩ "x" "V" = .ok () ∧
    (∃ msg, GamInfo.limits ⟨5, "5"⟩ ⟨0, "0"⟩ ⟨3, "3"⟩ "x" "V" = .error [msg] ∧
      "x".data <:+: msg.data ∧ "V".data <:+: msg.data ∧
      "0".data <:+: msg.data ∧ "3".data <:+: msg.data ∧
      "5".data <:+: msg.data) :=
  ⟨(limits_iff_out_of_range ⟨0, "0"⟩ ⟨0, "0"⟩ ⟨3, "3"⟩ "x" "V").2.1
      (Or.inl rfl) (by norm_num),
   (limits_iff_out_of_range ⟨5, "5"⟩ ⟨0, "0"⟩ ⟨3, "3"⟩ "x" "V").2.2
      (Or.inr (by norm_num))⟩

/-- C5: model lookup on any identifier other than the registered
"gam1010e" fails with an error naming the rejected identifier, and
lookup on a registered identifier returns a record whose voltage,
scan-rate and frequency bound pairs each satisfy min ≤ max. -/
theorem lookup_contract (m : String) :
    (m ≠ "gam1010e" →
      GamInfo.lookup m =
        .error ["Gamry model " ++ m ++ " not available in hardpotato."] ∧
      m.data <:+: ("Gamry model " ++ m ++ " not available in hardpotato.").data) ∧
    (∀ d, GamInfo.lookup m = .ok d →
      d.E_min.val ≤ d.E_max.val ∧ d.sr_min.val ≤ d.sr_max.val ∧
      d.freq_min.val ≤ d.freq_max.val) := by
  constructor
  · intro h
    refine ⟨by simp [GamInfo.lookup, h], ?_⟩
    simp only [String.data_append, List.append_assoc]
    exact substr_extend _ ((List.prefix_append _ _).isInfix)
  · intro d hd
    unfold GamInfo.lookup at hd
    by_cases h : m = "gam1010e"
    · rw [if_pos h] at hd
      cases hd
      exact ⟨by decide, by decide, by decide⟩
    · rw [if_neg h] at hd
      cases hd

theorem lookup_contract_witness :
    GamInfo.lookup "chi760e" =
      .error ["Gamry model chi760e not available in hardpotato."] ∧
    gam1010eInfo.E_min.val ≤ gam1010eInfo.E_max.val := by
  constructor
  · have h := (lookup_contract "chi760e").1 (by decide)
    rw [h.1]
    decide
  · exact ((lookup_contract "gam1010e").2 gam1010eInfo (by simp [GamInfo.lookup])).1

/-- The range check succeeds exactly when the value is inside the
bounds; shared helper for the validation theorems. -/
theorem limits_ok_iff (val low high : PyNum) (label units : String) :
    GamInfo.limits val low high label units = .ok () ↔
      ¬(val.val < low.val ∨ val.val > high.val) := by
  unfold GamInfo.limits
  by_cases h : val.val < low.val ∨ val.val > high.val <;> simp [h]

/-- Closed form of `GamBase.init`: the single registered model succeeds,
anything else is rejected. -/
theorem GamBase.init_eq (k : Kwargs) :
    GamBase.init k =
      if k.model = "gam1010e" then
        .ok { info := gam1010eInfo
              fileName := k.fileName
              folder := k.folder
              header := k.header
              head := gam1010eInfo.file_tag ++ "\nfolder: " ++ k.folder ++
                      "\nfileoverride\nheader: " ++ k.header ++ "\n\n"
              body := ""
              foot := "\n forcequit: yesiamsure\n"
              resistance := k.resistance
              end_body := end_clause k.resistance gam1010eInfo.resistance_opt k.fileName }
      else
        .error ["Gamry model " ++ k.model ++ " not available in hardpotato."] := by
  unfold GamBase.init GamInfo.lookup
  by_cases h : k.model = "gam1010e" <;> simp [h]

/-- C2: for every successfully constructed builder the end-of-script
clause is the IR-compensation form exactly when the solution resistance
is nonzero and the model supports resistance compensation, and the
simple run/save form otherwise; concretely, resistance 50 with file
name "run1" on the compensation-capable gam1010e yields the
mir/ircompon/run/ircompoff/save/tsave clause. -/
theorem end_clause_selection :
    (∀ k b, GamBase.init k = .ok b →
      (k.resistance.val ≠ 0 ∧ b.info.resistance_opt = true →
        b.end_body = "\nmir=" ++ k.resistance.str ++
          "\nircompon\nrun\nircompoff\n" ++ "save:" ++ k.fileName ++
          "\ntsave:" ++ k.fileName) ∧
      (¬(k.resistance.val ≠ 0 ∧ b.info.resistance_opt = true) →
        b.end_body = "\nrun\nsave:" ++ k.fileName ++ "\ntsave:" ++ k.fileName)) ∧
    (∃ b, GamBase.init ⟨"gam1010e", "run1", "", "", ⟨50, "50"⟩⟩ = .ok b ∧
      b.end_body = "\nmir=50\nircompon\nrun\nircompoff\nsave:run1\ntsave:run1") := by
  constructor
  · intro k b hb
    rw [GamBase.init_eq] at hb
    by_cases h : k.model = "gam1010e"
    · rw [if_pos h] at hb
      injection hb with hb
      subst hb
      constructor
      · rintro ⟨h1, h2⟩
        show end_clause k.resistance gam1010eInfo.resistance_opt k.fileName = _
        unfold end_clause
        rw [if_pos ⟨h1, h2⟩]
      · intro hc
        show end_clause k.resistance gam1010eInfo.resistance_opt k.fileName = _
        unfold end_clause
        rw [if_neg hc]
    · rw [if_neg h] at hb
      cases hb
  · exact ⟨{ info := gam1010eInfo
             fileName := "run1"
             folder := ""
             header := ""
             head := "c\x02\x00\x00\nfolder: \nfileoverride\nheader: \n\n"
             body := ""
             foot := "\n forcequit: yesiamsure\n"
             resistance := ⟨50, "50"⟩
             end_body := "\nmir=50\nircompon\nrun\nircompoff\nsave:run1\ntsave:run1" },
           by decide, rfl⟩

/-- A concrete builder with zero resistance, for exercising the simple
run/save branch. -/
def bC2w : GamBase :=
  { info := gam1010eInfo
    fileName := "f"
    folder := ""
    header := ""
    head := "c\x02\x00\x00\nfolder: \nfileoverride\nheader: \n\n"
    body := ""
    foot := "\n forcequit: yesiamsure\n"
    resistance := ⟨0, "0"⟩
    end_body := "\nrun\nsave:f\ntsave:f" }

theorem end_clause_selection_witness :
    GamBase.init ⟨"gam1010e", "f", "", "", ⟨0, "0"⟩⟩ = .ok bC2w ∧
    bC2w.end_body = "\nrun\nsave:" ++ "f" ++ "\ntsave:" ++ "f" := by
  have hinit : GamBase.init ⟨"gam1010e", "f", "", "", ⟨0, "0"⟩⟩ = .ok bC2w := by
    decide
  exact ⟨hinit,
    (end_clause_selection.1 ⟨"gam1010e", "f", "", "", ⟨0, "0"⟩⟩ bC2w hinit).2
      (by decide)⟩

/-- C6: requesting the bipotentiostat channel on a builder whose model
lacks the capability raises an error naming the model and leaves the
builder state, in particular its body, unchanged. -/
theorem bipot_unsupported_error (b : GamBase) (E sens : PyNum)
    (h : b.info.bipot = false) :
    GamBase.bipot b E sens =
      (.error [b.info.name, " does not have bipot abilities."], b) ∧
    ((GamBase.bipot b E sens).2).body = b.body ∧
    ((GamBase.bipot b E sens).2).text = b.text := by
  have e : GamBase.bipot b E sens =
      (.error [b.info.name, " does not have bipot abilities."], b) := by
    unfold GamBase.bipot
    rw [if_pos h]
  exact ⟨e, by rw [e], by rw [e]⟩

/-- A concrete builder whose model has the bipot flag cleared. -/
def bNoBipot : GamBase :=
  { info := { gam1010eInfo with bipot := false }
    fileName := "f"
    folder := ""
    header := ""
    head := "hd"
    body := "B"
    foot := "ft"
    resistance := ⟨0, "0"⟩
    end_body := "E" }

theorem bipot_unsupported_error_witness :
    GamBase.bipot bNoBipot ⟨0, "0"⟩ ⟨1, "1"⟩ =
      (.error ["Gamry Interface 1010E (gam1010e)",
               " does not have bipot abilities."], bNoBipot) ∧
    ((GamBase.bipot bNoBipot ⟨0, "0"⟩ ⟨1, "1"⟩).2).body = "B" := by
  have h := bipot_unsupported_error bNoBipot ⟨0, "0"⟩ ⟨1, "1"⟩ rfl
  exact ⟨h.1, h.2.1⟩

/-- C7: the final text is always the concatenation of the current
header, body, end-clause and footer fields — also after the body has
been mutated by the bipot add-on, whose state change is therefore
reflected in the next read; the property is a total function, so
reading it never fails and reading twice without mutation yields the
same string. -/
theorem text_recomputed (b : GamBase) :
    b.text = b.head ++ b.body ++ b.end_body ++ b.foot ∧
    (∀ E sens, ((GamBase.bipot b E sens).2).text =
      b.head ++ ((GamBase.bipot b E sens).2).body ++ b.end_body ++ b.foot) := by
  refine ⟨rfl, fun E sens => ?_⟩
  unfold GamBase.bipot
  by_cases h : b.info.bipot = false
  · rw [if_pos h]
    rfl
  · rw [if_neg h]
    cases hl : GamInfo.limits E b.info.E_min b.info.E_max "E2" "V" with
    | error e => simp only [hl]; rfl
    | ok u => cases u; simp only [hl]; rfl

/-- C9: constructing the sweep builder with a scan rate above the
model maximum fails during construction with the scan-rate
range-check error — no builder, and hence no script text, is
produced. -/
theorem gamCV_rejects_high_sr (Eini Ev1 Ev2 Efin sr dE : PyNum)
    (nSweeps : ℤ) (sens : PyNum) (k : Kwargs)
    (hm : k.model = "gam1010e")
    (h1 : ¬(Eini.val < gam1010eInfo.E_min.val ∨ Eini.val > gam1010eInfo.E_max.val))
    (h2 : ¬(Ev1.val < gam1010eInfo.E_min.val ∨ Ev1.val > gam1010eInfo.E_max.val))
    (h3 : ¬(Ev2.val < gam1010eInfo.E_min.val ∨ Ev2.val > gam1010eInfo.E_max.val))
    (h4 : ¬(Efin.val < gam1010eInfo.E_min.val ∨ Efin.val > gam1010eInfo.E_max.val))
    (h5 : sr.val > gam1010eInfo.sr_max.val) :
    ∃ msg, GamInfo.limits sr gam1010eInfo.sr_min gam1010eInfo.sr_max
        "sr" "V/s" = .error [msg] ∧
      GamCV.init Eini Ev1 Ev2 Efin sr dE nSweeps sens k = .error [msg] := by
  have v1 : GamInfo.limits Eini gam1010eInfo.E_min gam1010eInfo.E_max
      "Eini" "V" = .ok () := (limits_ok_iff _ _ _ _ _).mpr h1
  have v2 : GamInfo.limits Ev1 gam1010eInfo.E_min gam1010eInfo.E_max
      "Ev1" "V" = .ok () := (limits_ok_iff _ _ _ _ _).mpr h2
  have v3 : GamInfo.limits Ev2 gam1010eInfo.E_min gam1010eInfo.E_max
      "Ev2" "V" = .ok () := (limits_ok_iff _ _ _ _ _).mpr h3
  have v4 : GamInfo.limits Efin gam1010eInfo.E_min gam1010eInfo.E_max
      "Efin" "V" = .ok () := (limits_ok_iff _ _ _ _ _).mpr h4
  obtain ⟨msg, hE⟩ : ∃ msg, GamInfo.limits sr gam1010eInfo.sr_min
      gam1010eInfo.sr_max "sr" "V/s" = .error [msg] := by
    unfold GamInfo.limits
    rw [if_pos (Or.inr h5)]
    exact ⟨_, rfl⟩
  have hv : GamCV.validate gam1010eInfo Eini Ev1 Ev2 Efin sr = .error [msg] := by
    unfold GamCV.validate
    rw [v1, v2, v3, v4, hE]
  refine ⟨msg, hE, ?_⟩
  unfold GamCV.init
  split
  · next e hb =>
    rw [GamBase.init_eq, if_pos hm] at hb
    cases hb
  · next b hb =>
    rw [GamBase.init_eq, if_pos hm] at hb
    have hinfo : b.info = gam1010eInfo := by
      injection hb with hb
      rw [← hb]
    rw [hinfo, hv]

theorem gamCV_rejects_high_sr_witness :
    ∃ msg, GamInfo.limits ⟨20000, "20000"⟩ gam1010eInfo.sr_min
        gam1010eInfo.sr_max "sr" "V/s" = .error [msg] ∧
      GamCV.init ⟨0, "0"⟩ ⟨0, "0"⟩ ⟨0, "0"⟩ ⟨0, "0"⟩ ⟨20000, "20000"⟩
        ⟨1, "1"⟩ 2 ⟨1, "1"⟩ ⟨"gam1010e", "f", "", "", ⟨0, "0"⟩⟩ =
        .error [msg] :=
  gamCV_rejects_high_sr ⟨0, "0"⟩ ⟨0, "0"⟩ ⟨0, "0"⟩ ⟨0, "0"⟩
    ⟨20000, "20000"⟩ ⟨1, "1"⟩ 2 ⟨1, "1"⟩ ⟨"gam1010e", "f", "", "", ⟨0, "0"⟩⟩
    rfl (by decide) (by decide) (by decide) (by decide) (by decide)

/-- C10: on a bipot-capable model with an in-range potential, the bipot
add-on succeeds and its only effect is to append the channel-2 clause
(e2, sens2, i2on, run, save, tsave) to the body; header, end-clause,
footer and file name are untouched. -/
theorem bipot_appends_clause_only (b : GamBase) (E sens : PyNum)
    (hb : b.info.bipot = true)
    (hE : ¬(E.val < b.info.E_min.val ∨ E.val > b.info.E_max.val)) :
    GamBase.bipot b E sens =
      (.ok (), { b with
        body := b.body ++ "\ne2=" ++ E.str ++ "\nsens2=" ++ sens.str ++
                "\ni2on" ++ "\nrun\nsave:" ++ b.fileName ++
                "\ntsave:" ++ b.fileName }) ∧
    ((GamBase.bipot b E sens).2).head = b.head ∧
    ((GamBase.bipot b E sens).2).end_body = b.end_body ∧
    ((GamBase.bipot b E sens).2).foot = b.foot ∧
    ((GamBase.bipot b E sens).2).fileName = b.fileName := by
  have hlim : GamInfo.limits E b.info.E_min b.info.E_max "E2" "V" = .ok () :=
    (limits_ok_iff _ _ _ _ _).mpr hE
  have e : GamBase.bipot b E sens =
      (.ok (), { b with
        body := b.body ++ "\ne2=" ++ E.str ++ "\nsens2=" ++ sens.str ++
                "\ni2on" ++ "\nrun\nsave:" ++ b.fileName ++
                "\ntsave:" ++ b.fileName }) := by
    unfold GamBase.bipot
    rw [if_neg (by rw [hb]; decide), hlim]
  exact ⟨e, by rw [e], by rw [e], by rw [e], by rw [e]⟩

/-- A concrete builder on the bipot-capable registered model. -/
def bBipot : GamBase :=
  { info := gam1010eInfo
    fileName := "f"
    folder := ""
    header := ""
    head := "hd"
    body := "B"
    foot := "ft"
    resistance := ⟨0, "0"⟩
    end_body := "E" }

theorem bipot_appends_clause_only_witness :
    GamBase.bipot bBipot ⟨1, "1"⟩ ⟨2, "2"⟩ =
      (.ok (), { bBipot with
        body := "B" ++ "\ne2=" ++ "1" ++ "\nsens2=" ++ "2" ++ "\ni2on" ++
                "\nrun\nsave:" ++ "f" ++ "\ntsave:" ++ "f" }) ∧
    ((GamBase.bipot bBipot ⟨1, "1"⟩ ⟨2, "2"⟩).2).head = "hd" := by
  have h := bipot_appends_clause_only bBipot ⟨1, "1"⟩ ⟨2, "2"⟩ rfl (by decide)
  exact ⟨h.1, h.2.1⟩

/-- The builder state produced by the newer-generation CV example. -/
def sC4rec : GamBase :=
  { info := newGenInfo
    fileName := "run1"
    folder := "F"
    header := "H"
    head := "C\x02\x00\x00\nfolder: F\nfileoverride\nheader: H\n\n"
    body := "tech=cv\nei=0\neh=0.5\nel=-0.5\npn=p\ncl=3\nefon\nef=0\nsi=0.001\nqt=2\nv=0.1\nsens=1e-06"
    foot := "\n forcequit: yesiamsure\n"
    resistance := ⟨0, "0"⟩
    end_body := "\nrun\nsave:run1\ntsave:run1" }

/-- C4: the newer-generation cyclic-voltammetry builder constructed
with Eini=0, Ev1=0.5, Ev2=-0.5, Efin=0, sr=0.1, dE=0.001, nSweeps=2,
sens=1e-6, qt=2, resistance=0, folder "F", fileName "run1", header "H"
succeeds, its body contains the lines tech=cv, ei=0, eh=0.5, el=-0.5,
pn=p, cl=3, efon, ef=0, si=0.001, qt=2, v=0.1 and sens=1e-06, and its
end-clause is the simple run/save form. -/
theorem newGenCV_example :
    ∃ s, NewGenCV.init ⟨0, "0"⟩ ⟨q05, "0.5"⟩ ⟨-q05, "-0.5"⟩ ⟨0, "0"⟩
        ⟨q01, "0.1"⟩ ⟨q0001, "0.001"⟩ 2 ⟨q1em6, "1e-06"⟩ ⟨2, "2"⟩
        ⟨"gamgen2", "run1", "F", "H", ⟨0, "0"⟩⟩ = .ok s ∧
      "tech=cv" ∈ strLines s.body ∧ "ei=0" ∈ strLines s.body ∧
      "eh=0.5" ∈ strLines s.body ∧ "el=-0.5" ∈ strLines s.body ∧
      "pn=p" ∈ strLines s.body ∧ "cl=3" ∈ strLines s.body ∧
      "efon" ∈ strLines s.body ∧ "ef=0" ∈ strLines s.body ∧
      "si=0.001" ∈ strLines s.body ∧ "qt=2" ∈ strLines s.body ∧
      "v=0.1" ∈ strLines s.body ∧ "sens=1e-06" ∈ strLines s.body ∧
      s.end_body = "\nrun\nsave:run1\ntsave:run1" :=
  ⟨sC4rec, by decide, by decide, by decide, by decide, by decide, by decide,
   by decide, by decide, by decide, by decide, by decide, by decide,
   by decide, by decide⟩

/-- C8: the catalog spans two distinct firmware-generation variants of
the model family: the gam1010e generation without quiet-time, with
tighter voltage bounds, a wider frequency range and bipotentiostat
support, and the newer generation with quiet-time, wider voltage
bounds, no bipotentiostat and an additional pulse-voltammetry
technique. -/
theorem two_generation_catalog :
    "gam1010e" ≠ newGenId ∧
    fullLookup "gam1010e" = .ok gam1010eInfo ∧
    fullLookup newGenId = .ok newGenInfo ∧
    gam1010eInfo ≠ newGenInfo ∧
    gam1010eHasQuietTime = false ∧ newGenHasQuietTime = true ∧
    gam1010eInfo.bipot = true ∧ newGenInfo.bipot = false ∧
    newGenInfo.E_min.val < gam1010eInfo.E_min.val ∧
    gam1010eInfo.E_max.val < newGenInfo.E_max.val ∧
    gam1010eInfo.freq_min.val < newGenInfo.freq_min.val ∧
    newGenInfo.freq_max.val < gam1010eInfo.freq_max.val ∧
    "NPV" ∈ newGenInfo.tech ∧ "NPV" ∉ gam1010eInfo.tech := by
  decide
